import Mathlib

/-!
# Douyin open platform video client (`open/video/video.go`)

A shallow embedding of the six operations of `Video` (Upload, PartInit, PartUpload,
PartComplete, Create, Delete) together with the pieces of the Go runtime they rely on:

* `fmt.Sprintf` / `fmt.Errorf` for the verbs the package uses,
* Go's `(value, error)` results, written `α × Option ε` (`none` is a nil error),
* the collaborators (`GetAccessToken`, `util.PostMultipartForm`, `util.HTTPPost`,
  `util.PostJSON`, `json.Unmarshal`), taken as parameters of an environment `Env`
  acting on an arbitrary world state `σ`,
* a trace of every collaborator call, so that statements of the form
  "no transport call is issued" can be expressed.
-/

namespace Douyin

/-! ## Formatting -/

/-- Operands handed to `fmt.Sprintf`: the package only formats strings and integer codes. -/
inductive FmtArg where
  | str (s : String)
  | int (i : Int)

/-- The `type=value` rendering Go uses inside its `%!verb(...)` and `%!(EXTRA ...)` notes. -/
def FmtArg.typed : FmtArg → List Char
  | .str s => "string=".data ++ s.data
  | .int i => "int64=".data ++ (toString i).data

/-- Rendering of one operand under one verb: `%s`/`%v` print a string verbatim, `%d`/`%v`
print an integer in decimal, any other pairing yields Go's bad-verb note. -/
def FmtArg.render (verb : Char) : FmtArg → List Char
  | .str s =>
    if verb = 's' ∨ verb = 'v' then s.data
    else '%' :: '!' :: verb :: '(' :: (FmtArg.typed (.str s) ++ [')'])
  | .int i =>
    if verb = 'd' ∨ verb = 'v' then (toString i).data
    else '%' :: '!' :: verb :: '(' :: (FmtArg.typed (.int i) ++ [')'])

/-- Operands left over once the format is exhausted. -/
def sprintfExtra : List FmtArg → List Char
  | [] => []
  | a :: rest =>
    "%!(EXTRA ".data ++ a.typed ++ (rest.map (fun b => ", ".data ++ b.typed)).flatten ++ [')']

/-- The scanner of `fmt.Sprintf` for flag-free verbs. The boolean records that the previous
character was an unconsumed percent sign. -/
def sprintfAux : List Char → Bool → List FmtArg → List Char
  | [], pending, args => (if pending then "%!(NOVERB)".data else []) ++ sprintfExtra args
  | c :: rest, false, args =>
    if c = '%' then sprintfAux rest true args else c :: sprintfAux rest false args
  | c :: rest, true, args =>
    if c = '%' then '%' :: sprintfAux rest false args
    else
      match args with
      | [] => '%' :: '!' :: c :: "(MISSING)".data ++ sprintfAux rest false []
      | a :: args2 => a.render c ++ sprintfAux rest false args2

/-- The function `fmt.Sprintf`, restricted to flag-free verbs over strings and integers. -/
def Sprintf (format : String) (args : List FmtArg) : String :=
  ⟨sprintfAux format.data false args⟩

/-- Go `error` values seen by the package: errors handed back by a collaborator, and errors
the package builds itself with `fmt.Errorf`, identified by their text. -/
inductive GoError (ε : Type) where
  | collab (e : ε)
  | errorf (text : String)

/-- The function `fmt.Errorf`. -/
def Errorf {ε : Type} (format : String) (args : List FmtArg) : GoError ε :=
  .errorf (Sprintf format args)

/-- Substring test on strings: `s` occurs contiguously in `t`. -/
def occursIn (s t : String) : Prop := s.data <:+: t.data

instance occursIn.decidable (s t : String) : Decidable (occursIn s t) :=
  inferInstanceAs (Decidable (s.data <:+: t.data))

/-! ## Endpoint templates (`const` block) -/

def videoUploadURL : String :=
  "https://open.douyin.com/video/upload?access_token=%s&open_id=%s"
def videoPartInitURL : String :=
  "https://open.douyin.com/video/part/init?access_token=%s&open_id=%s"
def videoPartUploadURL : String :=
  "https://open.douyin.com/video/part/upload?access_token=%s&open_id=%s"
def videoPartCompleteURL : String :=
  "https://open.douyin.com/video/part/complete?access_token=%s&open_id=%s&upload_id=%s"
def videoCreateURL : String :=
  "https://open.douyin.com/video/create?access_token=%s&open_id=%s"
def videoDeleteURL : String :=
  "https://open.douyin.com/video/delete?access_token=%s&open_id=%s"

/-! ## Data model -/

/-- Raw bytes, Go's `[]byte`. -/
abbrev Bytes := List UInt8

/-- Modelled from the spec: the declaration of `util.CommonError` is not part of the
sources at hand. The spec describes it as the provider error envelope
`{errorCode, errorMessage}` found in every response's `data` (an integer `errcode` and a
string `errmsg`); `video.go` reads it through the fields `ErrCode` and `ErrMsg`. -/
structure CommonError where
  ErrCode : Int
  ErrMsg : String

/-- Modelled from the spec: the declaration of `util.MultipartFormField` is not part of
the sources at hand. The spec describes a multipart form field with a field name and the
file given as attachment; `video.go` sets exactly `Fieldname` and `Filename`. -/
structure MultipartFormField where
  Fieldname : String
  Filename : String

/-- The anonymous struct of the `Video` field of `Info`. -/
structure InfoVideo where
  VideoID : String
  Height : Int
  Width : Int

/-- The struct `Info`: `util.CommonError` embedded, then `Video`. -/
structure Info extends CommonError where
  Video : InfoVideo

structure uploadVideoRes where
  Message : String
  Data : Info

/-- The struct `PartInfo`. -/
structure PartInfo extends CommonError where
  UploadID : String

structure partInfoRes where
  Message : String
  Data : PartInfo

structure partVideoRes where
  Message : String
  Data : CommonError

/-- The struct `CreateVideoReq`; `AtUsers` is a slice, `none` standing for the nil slice. -/
structure CreateVideoReq where
  VideoID : String
  CoverTsp : Float
  GameID : String
  PoiID : String
  Text : String
  MicroAppURL : String
  MicroAppID : String
  MicroAppTitle : String
  AtUsers : Option (List String)
  GameContent : String
  TimelinessKeyword : String
  TimelinessLabel : String
  ArticleID : String
  ArticleTitle : String

/-- The struct `CreateInfo`. -/
structure CreateInfo extends CommonError where
  ItemID : String

structure createRes where
  Message : String
  Data : CreateInfo

structure deleteVideoReq where
  ItemID : String

structure deleteVideoRes where
  Message : String
  Data : CommonError

/-- Zero value of `Info`. -/
def Info.zero : Info := { ErrCode := 0, ErrMsg := "", Video := ⟨"", 0, 0⟩ }

/-- Zero value of `PartInfo`. -/
def PartInfo.zero : PartInfo := { ErrCode := 0, ErrMsg := "", UploadID := "" }

/-- Zero value of `CreateInfo`. -/
def CreateInfo.zero : CreateInfo := { ErrCode := 0, ErrMsg := "", ItemID := "" }

/-! ## JSON request bodies -/

/-- JSON values as produced by `json.Marshal`. -/
inductive JVal where
  | null
  | str (s : String)
  | num (f : Float)
  | arr (xs : List JVal)
  | obj (members : List (String × JVal))

/-- Member names of a JSON object, in order. -/
def JVal.keys : JVal → List String
  | .obj members => members.map Prod.fst
  | _ => []

/-- The value stored under `key` in a JSON object, if any. -/
def JVal.member (key : String) : JVal → Option JVal
  | .obj members => members.lookup key
  | _ => none

/-- Encoding of a `[]string`. -/
def marshalStrings : Option (List String) → JVal
  | none => .null
  | some xs => .arr (xs.map JVal.str)

/-- Encoding of a `CreateVideoReq`: each field under the name given by its `json` struct
tag, in declaration order. -/
def CreateVideoReq.marshal (r : CreateVideoReq) : JVal :=
  .obj [("video_id", .str r.VideoID),
        ("cover_tsp", .num r.CoverTsp),
        ("string", .str r.GameID),
        ("poi_id", .str r.PoiID),
        ("text", .str r.Text),
        ("micro_app_url", .str r.MicroAppURL),
        ("micro_app_id", .str r.MicroAppID),
        ("micro_app_title", .str r.MicroAppTitle),
        ("at_users", marshalStrings r.AtUsers),
        ("game_content", .str r.GameContent),
        ("timeliness_keyword", .str r.TimelinessKeyword),
        ("timeliness_label", .str r.TimelinessLabel),
        ("article_id", .str r.ArticleID),
        ("article_title", .str r.ArticleTitle)]

/-- Encoding of a `deleteVideoReq`. -/
def deleteVideoReq.marshal (r : deleteVideoReq) : JVal :=
  .obj [("item_id", .str r.ItemID)]

/-- The values this package passes as the `obj interface{}` argument of `util.PostJSON`:
a `*CreateVideoReq` (possibly nil) or a `*deleteVideoReq`. -/
inductive JSONArg where
  | createVideoReq (p : Option CreateVideoReq)
  | deleteVideoReq (p : deleteVideoReq)

/-- JSON encoding of the argument of `util.PostJSON`. -/
def JSONArg.marshal : JSONArg → JVal
  | .createVideoReq none => .null
  | .createVideoReq (some r) => r.marshal
  | .deleteVideoReq r => r.marshal

/-! ## Collaborators, world and trace -/

/-- One call made by an operation to a collaborator, with its arguments. -/
inductive Call where
  | GetAccessToken (openid : String)
  | PostMultipartForm (field : MultipartFormField) (uri : String)
  | HTTPPost (uri : String) (body : String)
  | PostJSON (uri : String) (obj : JSONArg)
  | Unmarshal (data : Bytes)

/-- The stage of the common control flow a call belongs to. -/
inductive Stage where
  | token
  | transport
  | decode
  deriving DecidableEq

def Call.stage : Call → Stage
  | .GetAccessToken _ => .token
  | .PostMultipartForm _ _ => .transport
  | .HTTPPost _ _ => .transport
  | .PostJSON _ _ => .transport
  | .Unmarshal _ => .decode

/-- The world an operation runs in: the state of everything outside the package, and the
calls made so far. -/
structure World (σ : Type) where
  state : σ
  trace : List Call

/-- The collaborators of the package. `GetAccessToken` comes from the embedded
`context.Context`, the three posts from `util`; they may read and change the outside world.
`json.Unmarshal` into a zeroed result of each response type is a function of the bytes: it
yields the (possibly partly filled) result together with its error. -/
structure Env (ε σ : Type) where
  GetAccessToken : String → σ → (String × Option ε) × σ
  PostMultipartForm : MultipartFormField → String → σ → (Bytes × Option ε) × σ
  HTTPPost : String → String → σ → (Bytes × Option ε) × σ
  PostJSON : String → JSONArg → σ → (Bytes × Option ε) × σ
  unmarshalUploadVideoRes : Bytes → uploadVideoRes × Option ε
  unmarshalPartInfoRes : Bytes → partInfoRes × Option ε
  unmarshalPartVideoRes : Bytes → partVideoRes × Option ε
  unmarshalCreateRes : Bytes → createRes × Option ε
  unmarshalDeleteVideoRes : Bytes → deleteVideoRes × Option ε

variable {ε σ : Type}

/-- Call of `video.GetAccessToken(openid)`. -/
def GetAccessToken (env : Env ε σ) (openid : String) (w : World σ) :
    (String × Option ε) × World σ :=
  ((env.GetAccessToken openid w.state).1,
   ⟨(env.GetAccessToken openid w.state).2, w.trace ++ [.GetAccessToken openid]⟩)

/-- Call of `util.PostMultipartForm(field, uri)`. -/
def PostMultipartForm (env : Env ε σ) (field : MultipartFormField) (uri : String)
    (w : World σ) : (Bytes × Option ε) × World σ :=
  ((env.PostMultipartForm field uri w.state).1,
   ⟨(env.PostMultipartForm field uri w.state).2, w.trace ++ [.PostMultipartForm field uri]⟩)

/-- Call of `util.HTTPPost(uri, data)`. -/
def HTTPPost (env : Env ε σ) (uri data : String) (w : World σ) :
    (Bytes × Option ε) × World σ :=
  ((env.HTTPPost uri data w.state).1,
   ⟨(env.HTTPPost uri data w.state).2, w.trace ++ [.HTTPPost uri data]⟩)

/-- Call of `util.PostJSON(uri, obj)`. -/
def PostJSON (env : Env ε σ) (uri : String) (obj : JSONArg) (w : World σ) :
    (Bytes × Option ε) × World σ :=
  ((env.PostJSON uri obj w.state).1,
   ⟨(env.PostJSON uri obj w.state).2, w.trace ++ [.PostJSON uri obj]⟩)

/-- Call of `json.Unmarshal(data, &result)` with the decoder of the result's type. -/
def Unmarshal {α : Type} (decoder : Bytes → α × Option ε) (data : Bytes) (w : World σ) :
    (α × Option ε) × World σ :=
  (decoder data, ⟨w.state, w.trace ++ [.Unmarshal data]⟩)

/-! ## The operations of `Video` -/

/-- The method `Video.Upload`. -/
def Upload (env : Env ε σ) (openid filename : String) (w : World σ) :
    (Info × Option (GoError ε)) × World σ :=
  let videoInfo : Info := Info.zero
  match GetAccessToken env openid w with
  | ((_, some err), w) => ((videoInfo, some (.collab err)), w)
  | ((accessToken, none), w) =>
    let uri := Sprintf videoUploadURL [.str accessToken, .str openid]
    let field : MultipartFormField := { Fieldname := "video", Filename := filename }
    match PostMultipartForm env field uri w with
    | ((_, some err), w) => ((videoInfo, some (.collab err)), w)
    | ((response, none), w) =>
      match Unmarshal env.unmarshalUploadVideoRes response w with
      | ((_, some err), w) => ((videoInfo, some (.collab err)), w)
      | ((result, none), w) =>
        if result.Data.ErrCode ≠ 0 then
          ((videoInfo, some (Errorf "Upload error : errcode=%v , errmsg=%v"
            [.int result.Data.ErrCode, .str result.Data.ErrMsg])), w)
        else ((result.Data, none), w)

/-- The method `Video.PartInit`. -/
def PartInit (env : Env ε σ) (openid : String) (w : World σ) :
    (PartInfo × Option (GoError ε)) × World σ :=
  let partInfo : PartInfo := PartInfo.zero
  match GetAccessToken env openid w with
  | ((_, some err), w) => ((partInfo, some (.collab err)), w)
  | ((accessToken, none), w) =>
    let uri := Sprintf videoPartInitURL [.str accessToken, .str openid]
    match HTTPPost env uri "" w with
    | ((_, some err), w) => ((partInfo, some (.collab err)), w)
    | ((response, none), w) =>
      match Unmarshal env.unmarshalPartInfoRes response w with
      | ((_, some err), w) => ((partInfo, some (.collab err)), w)
      | ((result, none), w) =>
        if result.Data.ErrCode ≠ 0 then
          ((partInfo, some (Errorf "PartInit error : errcode=%v , errmsg=%v"
            [.int result.Data.ErrCode, .str result.Data.ErrMsg])), w)
        else ((result.Data, none), w)

/-- The method `Video.PartUpload`. -/
def PartUpload (env : Env ε σ) (openid _uploadid : String) (_partNumber : Int)
    (filename : String) (w : World σ) : Option (GoError ε) × World σ :=
  match GetAccessToken env openid w with
  | ((_, some err), w) => (some (.collab err), w)
  | ((accessToken, none), w) =>
    let uri := Sprintf videoPartUploadURL [.str accessToken, .str openid]
    let field : MultipartFormField := { Fieldname := "video", Filename := filename }
    match PostMultipartForm env field uri w with
    | ((_, some err), w) => (some (.collab err), w)
    | ((response, none), w) =>
      match Unmarshal env.unmarshalPartVideoRes response w with
      | ((_, some err), w) => (some (.collab err), w)
      | ((result, none), w) =>
        if result.Data.ErrCode ≠ 0 then
          (some (Errorf "Upload error : errcode=%v , errmsg=%v"
            [.int result.Data.ErrCode, .str result.Data.ErrMsg]), w)
        else (none, w)

/-- The method `Video.PartComplete`. -/
def PartComplete (env : Env ε σ) (openid uploadid : String) (w : World σ) :
    (Info × Option (GoError ε)) × World σ :=
  let videoInfo : Info := Info.zero
  match GetAccessToken env openid w with
  | ((_, some err), w) => ((videoInfo, some (.collab err)), w)
  | ((accessToken, none), w) =>
    let uri := Sprintf videoPartCompleteURL [.str accessToken, .str openid, .str uploadid]
    match HTTPPost env uri "" w with
    | ((_, some err), w) => ((videoInfo, some (.collab err)), w)
    | ((response, none), w) =>
      match Unmarshal env.unmarshalUploadVideoRes response w with
      | ((_, some err), w) => ((videoInfo, some (.collab err)), w)
      | ((result, none), w) =>
        if result.Data.ErrCode ≠ 0 then
          ((videoInfo, some (Errorf "PartComplete error : errcode=%v , errmsg=%v"
            [.int result.Data.ErrCode, .str result.Data.ErrMsg])), w)
        else ((result.Data, none), w)

/-- The method `Video.Create`; `videoInfo` is a pointer, `none` standing for nil. -/
def Create (env : Env ε σ) (openid : String) (videoInfo : Option CreateVideoReq)
    (w : World σ) : (CreateInfo × Option (GoError ε)) × World σ :=
  let info : CreateInfo := CreateInfo.zero
  match GetAccessToken env openid w with
  | ((_, some err), w) => ((info, some (.collab err)), w)
  | ((accessToken, none), w) =>
    let uri := Sprintf videoCreateURL [.str accessToken, .str openid]
    match PostJSON env uri (.createVideoReq videoInfo) w with
    | ((_, some err), w) => ((info, some (.collab err)), w)
    | ((response, none), w) =>
      match Unmarshal env.unmarshalCreateRes response w with
      | ((_, some err), w) => ((info, some (.collab err)), w)
      | ((result, none), w) =>
        if result.Data.ErrCode ≠ 0 then
          ((info, some (Errorf "Create error : errcode=%v , errmsg=%v"
            [.int result.Data.ErrCode, .str result.Data.ErrMsg])), w)
        else ((result.Data, none), w)

/-- The method `Video.Delete`. It has no result: the local `err` is assigned on every
failing path and then dropped by the bare `return`. -/
def Delete (env : Env ε σ) (openid itemid : String) (w : World σ) : Unit × World σ :=
  match GetAccessToken env openid w with
  | ((_, some _), w) => ((), w)
  | ((accessToken, none), w) =>
    let uri := Sprintf videoCreateURL [.str accessToken, .str openid]
    let rep : deleteVideoReq := { ItemID := itemid }
    match PostJSON env uri (.deleteVideoReq rep) w with
    | ((_, some _), w) => ((), w)
    | ((response, none), w) =>
      match Unmarshal env.unmarshalDeleteVideoRes response w with
      | ((_, some _), w) => ((), w)
      | ((result, none), w) =>
        if result.Data.ErrCode ≠ 0 then
          let _err : GoError ε := Errorf "Delete error : errcode=%v , errmsg=%v"
            [.int result.Data.ErrCode, .str result.Data.ErrMsg]
          ((), w)
        else ((), w)

/-! ## Predicates used in the statements -/

/-- The text built by the five `fmt.Errorf` calls, for a message head without verbs. -/
def providerErrorText (op : String) (c : Int) (m : String) : String :=
  op ++ " error : errcode=" ++ toString c ++ " , errmsg=" ++ m

/-- An operation's error reports provider code `c` and message `m` under the head `op`:
it is the `fmt.Errorf` error whose text is `<op> error : errcode=<c> , errmsg=<m>`, and
that text contains the decimal form of `c` and contains `m`. -/
def ReportsProviderError (err : Option (GoError ε)) (op : String) (c : Int) (m : String) :
    Prop :=
  ∃ text, err = some (.errorf text)
    ∧ text = op ++ " error : errcode=" ++ toString c ++ " , errmsg=" ++ m
    ∧ occursIn (toString c) text ∧ occursIn m text

/-- The calls made between world `w` and world `w2` are an initial part of
token, transport, decode: in that order, none repeated, none skipped. -/
def StagesInOrder (w w2 : World σ) : Prop :=
  ∃ added, w2.trace = w.trace ++ added
    ∧ added.map Call.stage <+: [Stage.token, Stage.transport, Stage.decode]

/-- Between `w` and `w2` the operation called the token provider for `openid`, then the
transport exactly once, with `call`, and after that at most decoded. -/
def SingleTransportCall (w w2 : World σ) (openid : String) (call : Call) : Prop :=
  call.stage = Stage.transport
    ∧ ∃ rest, w2.trace = w.trace ++ (Call.GetAccessToken openid :: call :: rest)
        ∧ ∀ c ∈ rest, c.stage = Stage.decode

/-! ## A scripted environment for concrete runs

Errors are strings, the outside world is a counter of collaborator calls. -/

/-- ASCII bytes of a string. -/
def ascii (s : String) : Bytes := s.data.map (fun c => c.toNat.toUInt8)

/-- Every collaborator succeeds; every response has an empty body, which no decoder
accepts. -/
def baseEnv : Env String Nat where
  GetAccessToken := fun _ s => (("T0", none), s + 1)
  PostMultipartForm := fun _ _ s => (([], none), s + 1)
  HTTPPost := fun _ _ s => (([], none), s + 1)
  PostJSON := fun _ _ s => (([], none), s + 1)
  unmarshalUploadVideoRes := fun _ => (⟨"", Info.zero⟩, some "unexpected end of JSON input")
  unmarshalPartInfoRes := fun _ => (⟨"", PartInfo.zero⟩, some "unexpected end of JSON input")
  unmarshalPartVideoRes := fun _ => (⟨"", ⟨0, ""⟩⟩, some "unexpected end of JSON input")
  unmarshalCreateRes := fun _ => (⟨"", CreateInfo.zero⟩, some "unexpected end of JSON input")
  unmarshalDeleteVideoRes := fun _ => (⟨"", ⟨0, ""⟩⟩, some "unexpected end of JSON input")

/-- The token provider fails. -/
def tokenDownEnv : Env String Nat :=
  { baseEnv with GetAccessToken := fun _ s => (("", some "token expired"), s + 1) }

/-- The initial world of the concrete runs. -/
def w0 : World Nat := ⟨0, []⟩

/-- The provider answers Create with errcode 4001001, errmsg "invalid param". -/
def invalidParamBody : Bytes :=
  ascii "\x7b\"data\":\x7b\"errcode\":4001001,\"errmsg\":\"invalid param\"\x7d\x7d"

/-- Environment whose JSON post returns `invalidParamBody`, decoded as its text says. -/
def invalidParamEnv : Env String Nat :=
  { baseEnv with
    PostJSON := fun _ _ s => ((invalidParamBody, none), s + 1)
    unmarshalCreateRes := fun b =>
      if b = invalidParamBody then
        (⟨"", { ErrCode := 4001001, ErrMsg := "invalid param", ItemID := "" }⟩, none)
      else (⟨"", CreateInfo.zero⟩, some "unexpected end of JSON input") }

/-- The provider answers an upload with video v1, 720 by 1280. -/
def uploadedBody : Bytes :=
  ascii ("\x7b\"data\":\x7b\"errcode\":0,\"video\":"
    ++ "\x7b\"video_id\":\"v1\",\"height\":720,\"width\":1280\x7d\x7d\x7d")

/-- Environment whose multipart post returns `uploadedBody`, decoded as its text says. -/
def uploadedEnv : Env String Nat :=
  { baseEnv with
    PostMultipartForm := fun _ _ s => ((uploadedBody, none), s + 1)
    unmarshalUploadVideoRes := fun b =>
      if b = uploadedBody then
        (⟨"", { ErrCode := 0, ErrMsg := "", Video := ⟨"v1", 720, 1280⟩ }⟩, none)
      else (⟨"", Info.zero⟩, some "unexpected end of JSON input") }

/-- The transport is down. -/
def transportDownEnv : Env String Nat :=
  { baseEnv with
    PostMultipartForm := fun _ _ s => (([], some "connection refused"), s + 1)
    HTTPPost := fun _ _ s => (([], some "connection refused"), s + 1)
    PostJSON := fun _ _ s => (([], some "connection refused"), s + 1) }

/-- The provider answers PartInit with a numeric errmsg. -/
def mistypedBody : Bytes :=
  ascii "\x7b\"data\":\x7b\"errcode\":5,\"errmsg\":123\x7d\x7d"

/-- Environment whose plain post returns `mistypedBody`; the decoder fills `ErrCode` and
reports the mistyped `errmsg`. -/
def mistypedEnv : Env String Nat :=
  { baseEnv with
    HTTPPost := fun _ _ s => ((mistypedBody, none), s + 1)
    unmarshalPartInfoRes := fun b =>
      if b = mistypedBody then
        (⟨"", { ErrCode := 5, ErrMsg := "", UploadID := "" }⟩,
          some "json: cannot unmarshal number into Go struct field of type string")
      else (⟨"", PartInfo.zero⟩, some "unexpected end of JSON input") }

/-- A publishing request naming a game. -/
def sampleReq : CreateVideoReq :=
  { VideoID := "v1", CoverTsp := 0, GameID := "g1", PoiID := "", Text := "hello",
    MicroAppURL := "", MicroAppID := "", MicroAppTitle := "", AtUsers := none,
    GameContent := "", TimelinessKeyword := "", TimelinessLabel := "", ArticleID := "",
    ArticleTitle := "" }

/-- The provider acknowledges a deletion. -/
def deletedBody : Bytes :=
  ascii "\x7b\"data\":\x7b\"errcode\":0,\"errmsg\":\"\"\x7d\x7d"

/-- Environment whose JSON post tells the endpoints apart: a post to the create URL of
token "T0" and open id "u1" advances the world by 10, a post to the delete URL of the same
token and open id by 20, any other post by 1; only a `deleteVideoReq` for item "item9" is
answered with `deletedBody`, which the decoder of `deleteVideoRes` accepts. -/
def routedEnv : Env String Nat :=
  { baseEnv with
    PostJSON := fun uri obj s =>
      ((match obj with
        | .deleteVideoReq r => if r.ItemID = "item9" then deletedBody else []
        | .createVideoReq _ => [],
        none),
       if uri = "https://open.douyin.com/video/create?access_token=T0&open_id=u1" then s + 10
       else if uri = "https://open.douyin.com/video/delete?access_token=T0&open_id=u1" then
         s + 20
       else s + 1)
    unmarshalDeleteVideoRes := fun b =>
      if b = deletedBody then (⟨"", ⟨0, ""⟩⟩, none)
      else (⟨"", ⟨0, ""⟩⟩, some "unexpected end of JSON input") }

/-! ## Formatting lemmas -/

theorem uploadURL_eq (t o : String) :
    Sprintf videoUploadURL [.str t, .str o]
      = "https://open.douyin.com" ++ "/video/upload" ++ "?access_token=" ++ t
          ++ "&open_id=" ++ o := by
  apply String.ext
  simp [Sprintf, videoUploadURL, sprintfAux, FmtArg.render, sprintfExtra]

theorem partInitURL_eq (t o : String) :
    Sprintf videoPartInitURL [.str t, .str o]
      = "https://open.douyin.com" ++ "/video/part/init" ++ "?access_token=" ++ t
          ++ "&open_id=" ++ o := by
  apply String.ext
  simp [Sprintf, videoPartInitURL, sprintfAux, FmtArg.render, sprintfExtra]

theorem partUploadURL_eq (t o : String) :
    Sprintf videoPartUploadURL [.str t, .str o]
      = "https://open.douyin.com" ++ "/video/part/upload" ++ "?access_token=" ++ t
          ++ "&open_id=" ++ o := by
  apply String.ext
  simp [Sprintf, videoPartUploadURL, sprintfAux, FmtArg.render, sprintfExtra]

theorem partCompleteURL_eq (t o u : String) :
    Sprintf videoPartCompleteURL [.str t, .str o, .str u]
      = "https://open.douyin.com" ++ "/video/part/complete" ++ "?access_token=" ++ t
          ++ "&open_id=" ++ o ++ "&upload_id=" ++ u := by
  apply String.ext
  simp [Sprintf, videoPartCompleteURL, sprintfAux, FmtArg.render, sprintfExtra]

theorem createURL_eq (t o : String) :
    Sprintf videoCreateURL [.str t, .str o]
      = "https://open.douyin.com" ++ "/video/create" ++ "?access_token=" ++ t
          ++ "&open_id=" ++ o := by
  apply String.ext
  simp [Sprintf, videoCreateURL, sprintfAux, FmtArg.render, sprintfExtra]

theorem deleteURL_eq (t o : String) :
    Sprintf videoDeleteURL [.str t, .str o]
      = "https://open.douyin.com" ++ "/video/delete" ++ "?access_token=" ++ t
          ++ "&open_id=" ++ o := by
  apply String.ext
  simp [Sprintf, videoDeleteURL, sprintfAux, FmtArg.render, sprintfExtra]

theorem createURL_ne_deleteURL (t o a b : String) :
    Sprintf videoCreateURL [.str t, .str o] ≠ Sprintf videoDeleteURL [.str a, .str b] := by
  intro h
  have h2 := congrArg String.data h
  simp [Sprintf, videoCreateURL, videoDeleteURL, sprintfAux, FmtArg.render, sprintfExtra] at h2

theorem code_occursIn_text (op : String) (c : Int) (m : String) :
    occursIn (toString c) (providerErrorText op c m) := by
  refine ⟨(op ++ " error : errcode=").data, (" , errmsg=" ++ m).data, ?_⟩
  simp [providerErrorText, String.data_append]

theorem msg_occursIn_text (op : String) (c : Int) (m : String) :
    occursIn m (providerErrorText op c m) := by
  refine ⟨(op ++ " error : errcode=" ++ toString c ++ " , errmsg=").data, [], ?_⟩
  simp [providerErrorText, String.data_append]

theorem errorf_Upload (c : Int) (m : String) :
    Sprintf "Upload error : errcode=%v , errmsg=%v" [.int c, .str m]
      = providerErrorText "Upload" c m := by
  apply String.ext
  simp [Sprintf, sprintfAux, FmtArg.render, sprintfExtra, providerErrorText]

theorem errorf_PartInit (c : Int) (m : String) :
    Sprintf "PartInit error : errcode=%v , errmsg=%v" [.int c, .str m]
      = providerErrorText "PartInit" c m := by
  apply String.ext
  simp [Sprintf, sprintfAux, FmtArg.render, sprintfExtra, providerErrorText]

theorem errorf_PartComplete (c : Int) (m : String) :
    Sprintf "PartComplete error : errcode=%v , errmsg=%v" [.int c, .str m]
      = providerErrorText "PartComplete" c m := by
  apply String.ext
  simp [Sprintf, sprintfAux, FmtArg.render, sprintfExtra, providerErrorText]

theorem errorf_Create (c : Int) (m : String) :
    Sprintf "Create error : errcode=%v , errmsg=%v" [.int c, .str m]
      = providerErrorText "Create" c m := by
  apply String.ext
  simp [Sprintf, sprintfAux, FmtArg.render, sprintfExtra, providerErrorText]

/-! ## Token failure -/

/-- C1: if `GetAccessToken` fails with error `e`, then Upload, PartInit, PartUpload,
PartComplete and Create return their zero result together with exactly `e`, and the only
call any of them (and Delete) makes is the token call: the trace grows by
`GetAccessToken openid` alone and the world is left as the token provider left it, so no
PostMultipartForm, HTTPPost or PostJSON is issued. -/
theorem token_failure_aborts (env : Env ε σ) (openid : String) (w : World σ)
    (tok : String) (e : ε) (s1 : σ)
    (htok : env.GetAccessToken openid w.state = ((tok, some e), s1)) :
    (∀ filename, Upload env openid filename w
        = ((Info.zero, some (.collab e)), ⟨s1, w.trace ++ [.GetAccessToken openid]⟩))
    ∧ PartInit env openid w
        = ((PartInfo.zero, some (.collab e)), ⟨s1, w.trace ++ [.GetAccessToken openid]⟩)
    ∧ (∀ uploadid partNumber filename, PartUpload env openid uploadid partNumber filename w
        = (some (.collab e), ⟨s1, w.trace ++ [.GetAccessToken openid]⟩))
    ∧ (∀ uploadid, PartComplete env openid uploadid w
        = ((Info.zero, some (.collab e)), ⟨s1, w.trace ++ [.GetAccessToken openid]⟩))
    ∧ (∀ videoInfo, Create env openid videoInfo w
        = ((CreateInfo.zero, some (.collab e)), ⟨s1, w.trace ++ [.GetAccessToken openid]⟩))
    ∧ (∀ itemid, Delete env openid itemid w
        = ((), ⟨s1, w.trace ++ [.GetAccessToken openid]⟩)) := by
  refine ⟨?_, ?_, ?_, ?_, ?_, ?_⟩
  · intro filename
    simp [Upload, GetAccessToken, htok]
  · simp [PartInit, GetAccessToken, htok]
  · intro uploadid partNumber filename
    simp [PartUpload, GetAccessToken, htok]
  · intro uploadid
    simp [PartComplete, GetAccessToken, htok]
  · intro videoInfo
    simp [Create, GetAccessToken, htok]
  · intro itemid
    simp [Delete, GetAccessToken, htok]

/-- Concrete run for C1: with a token provider answering "token expired", Upload and
Delete make the token call only, and Upload returns that very error. -/
theorem token_failure_aborts_witness :
    tokenDownEnv.GetAccessToken "u1" w0.state = (("", some "token expired"), 1)
    ∧ Upload tokenDownEnv "u1" "a.mp4" w0
        = ((Info.zero, some (.collab "token expired")), ⟨1, [.GetAccessToken "u1"]⟩)
    ∧ Delete tokenDownEnv "u1" "item9" w0 = ((), ⟨1, [.GetAccessToken "u1"]⟩) :=
  ⟨rfl,
   (token_failure_aborts tokenDownEnv "u1" w0 "" "token expired" 1 rfl).1 "a.mp4",
   (token_failure_aborts tokenDownEnv "u1" w0 "" "token expired" 1 rfl).2.2.2.2.2 "item9"⟩

/-! ## Provider errors -/

theorem reportsProviderError_intro (op : String) (c : Int) (m : String) :
    ReportsProviderError (ε := ε) (some (.errorf (providerErrorText op c m))) op c m :=
  ⟨_, rfl, rfl, code_occursIn_text op c m, msg_occursIn_text op c m⟩

/-- C2: once the token and the transport call have succeeded and the body decodes (nil
decode error) to an envelope whose `data.errcode` is non-zero, each of Upload, PartInit,
PartUpload, PartComplete and Create returns a non-nil error built by `fmt.Errorf` whose
text is `<head> error : errcode=<c> , errmsg=<m>`, hence contains the decimal rendering
of the code and the message verbatim (PartUpload uses the head `Upload`). -/
theorem provider_error_reported (env : Env ε σ) (openid : String) (w : World σ)
    (tok : String) (s1 : σ)
    (htok : env.GetAccessToken openid w.state = ((tok, none), s1)) :
    (∀ filename resp s2 (res : uploadVideoRes),
        env.PostMultipartForm ⟨"video", filename⟩
          (Sprintf videoUploadURL [.str tok, .str openid]) s1 = ((resp, none), s2) →
        env.unmarshalUploadVideoRes resp = (res, none) → res.Data.ErrCode ≠ 0 →
        ReportsProviderError (Upload env openid filename w).1.2
          "Upload" res.Data.ErrCode res.Data.ErrMsg)
    ∧ (∀ resp s2 (res : partInfoRes),
        env.HTTPPost (Sprintf videoPartInitURL [.str tok, .str openid]) "" s1
          = ((resp, none), s2) →
        env.unmarshalPartInfoRes resp = (res, none) → res.Data.ErrCode ≠ 0 →
        ReportsProviderError (PartInit env openid w).1.2
          "PartInit" res.Data.ErrCode res.Data.ErrMsg)
    ∧ (∀ uploadid partNumber filename resp s2 (res : partVideoRes),
        env.PostMultipartForm ⟨"video", filename⟩
          (Sprintf videoPartUploadURL [.str tok, .str openid]) s1 = ((resp, none), s2) →
        env.unmarshalPartVideoRes resp = (res, none) → res.Data.ErrCode ≠ 0 →
        ReportsProviderError (PartUpload env openid uploadid partNumber filename w).1
          "Upload" res.Data.ErrCode res.Data.ErrMsg)
    ∧ (∀ uploadid resp s2 (res : uploadVideoRes),
        env.HTTPPost (Sprintf videoPartCompleteURL [.str tok, .str openid, .str uploadid])
          "" s1 = ((resp, none), s2) →
        env.unmarshalUploadVideoRes resp = (res, none) → res.Data.ErrCode ≠ 0 →
        ReportsProviderError (PartComplete env openid uploadid w).1.2
          "PartComplete" res.Data.ErrCode res.Data.ErrMsg)
    ∧ (∀ videoInfo resp s2 (res : createRes),
        env.PostJSON (Sprintf videoCreateURL [.str tok, .str openid])
          (.createVideoReq videoInfo) s1 = ((resp, none), s2) →
        env.unmarshalCreateRes resp = (res, none) → res.Data.ErrCode ≠ 0 →
        ReportsProviderError (Create env openid videoInfo w).1.2
          "Create" res.Data.ErrCode res.Data.ErrMsg) := by
  refine ⟨?_, ?_, ?_, ?_, ?_⟩
  · intro filename resp s2 res htr hdec hc
    have h := reportsProviderError_intro (ε := ε) "Upload" res.Data.ErrCode res.Data.ErrMsg
    simpa [Upload, GetAccessToken, PostMultipartForm, Unmarshal, Errorf, htok, htr, hdec, hc,
      errorf_Upload] using h
  · intro resp s2 res htr hdec hc
    have h := reportsProviderError_intro (ε := ε) "PartInit" res.Data.ErrCode res.Data.ErrMsg
    simpa [PartInit, GetAccessToken, HTTPPost, Unmarshal, Errorf, htok, htr, hdec, hc,
      errorf_PartInit] using h
  · intro uploadid partNumber filename resp s2 res htr hdec hc
    have h := reportsProviderError_intro (ε := ε) "Upload" res.Data.ErrCode res.Data.ErrMsg
    simpa [PartUpload, GetAccessToken, PostMultipartForm, Unmarshal, Errorf, htok, htr, hdec,
      hc, errorf_Upload] using h
  · intro uploadid resp s2 res htr hdec hc
    have h := reportsProviderError_intro (ε := ε) "PartComplete" res.Data.ErrCode
      res.Data.ErrMsg
    simpa [PartComplete, GetAccessToken, HTTPPost, Unmarshal, Errorf, htok, htr, hdec, hc,
      errorf_PartComplete] using h
  · intro videoInfo resp s2 res htr hdec hc
    have h := reportsProviderError_intro (ε := ε) "Create" res.Data.ErrCode res.Data.ErrMsg
    simpa [Create, GetAccessToken, PostJSON, Unmarshal, Errorf, htok, htr, hdec, hc,
      errorf_Create] using h

/-- Concrete run for C2: Create against a provider answering errcode 4001001 with errmsg
"invalid param" returns the error "Create error : errcode=4001001 , errmsg=invalid param",
whose text contains "4001001" and "invalid param". -/
theorem provider_error_reported_witness :
    invalidParamEnv.GetAccessToken "u1" w0.state = (("T0", none), 1)
    ∧ (Create invalidParamEnv "u1" none w0).1.2
        = some (.errorf "Create error : errcode=4001001 , errmsg=invalid param")
    ∧ occursIn "4001001" "Create error : errcode=4001001 , errmsg=invalid param"
    ∧ occursIn "invalid param" "Create error : errcode=4001001 , errmsg=invalid param" := by
  obtain ⟨text, h1, h2, h3, h4⟩ :=
    (provider_error_reported invalidParamEnv "u1" w0 "T0" 1 rfl).2.2.2.2 none
      invalidParamBody 2
      ⟨"", { ErrCode := 4001001, ErrMsg := "invalid param", ItemID := "" }⟩
      rfl rfl (by decide)
  have ht : text = "Create error : errcode=4001001 , errmsg=invalid param" :=
    h2.trans (by decide)
  subst ht
  exact ⟨rfl, h1, h3, h4⟩

/-! ## Success -/

/-- C3: once the token and the transport call have succeeded and the body decodes (nil
decode error) to an envelope whose `data.errcode` is 0, Upload, PartInit, PartComplete
and Create return a nil error and exactly the decoded `data` object (so video_id, height,
width, upload_id, item_id are those of the response), and PartUpload returns a nil
error. -/
theorem success_returns_decoded_data (env : Env ε σ) (openid : String) (w : World σ)
    (tok : String) (s1 : σ)
    (htok : env.GetAccessToken openid w.state = ((tok, none), s1)) :
    (∀ filename resp s2 (res : uploadVideoRes),
        env.PostMultipartForm ⟨"video", filename⟩
          (Sprintf videoUploadURL [.str tok, .str openid]) s1 = ((resp, none), s2) →
        env.unmarshalUploadVideoRes resp = (res, none) → res.Data.ErrCode = 0 →
        (Upload env openid filename w).1 = (res.Data, none)
        ∧ (Upload env openid filename w).1.1.Video.VideoID = res.Data.Video.VideoID
        ∧ (Upload env openid filename w).1.1.Video.Height = res.Data.Video.Height
        ∧ (Upload env openid filename w).1.1.Video.Width = res.Data.Video.Width)
    ∧ (∀ resp s2 (res : partInfoRes),
        env.HTTPPost (Sprintf videoPartInitURL [.str tok, .str openid]) "" s1
          = ((resp, none), s2) →
        env.unmarshalPartInfoRes resp = (res, none) → res.Data.ErrCode = 0 →
        (PartInit env openid w).1 = (res.Data, none)
        ∧ (PartInit env openid w).1.1.UploadID = res.Data.UploadID)
    ∧ (∀ uploadid partNumber filename resp s2 (res : partVideoRes),
        env.PostMultipartForm ⟨"video", filename⟩
          (Sprintf videoPartUploadURL [.str tok, .str openid]) s1 = ((resp, none), s2) →
        env.unmarshalPartVideoRes resp = (res, none) → res.Data.ErrCode = 0 →
        (PartUpload env openid uploadid partNumber filename w).1 = none)
    ∧ (∀ uploadid resp s2 (res : uploadVideoRes),
        env.HTTPPost (Sprintf videoPartCompleteURL [.str tok, .str openid, .str uploadid])
          "" s1 = ((resp, none), s2) →
        env.unmarshalUploadVideoRes resp = (res, none) → res.Data.ErrCode = 0 →
        (PartComplete env openid uploadid w).1 = (res.Data, none)
        ∧ (PartComplete env openid uploadid w).1.1.Video.VideoID = res.Data.Video.VideoID
        ∧ (PartComplete env openid uploadid w).1.1.Video.Height = res.Data.Video.Height
        ∧ (PartComplete env openid uploadid w).1.1.Video.Width = res.Data.Video.Width)
    ∧ (∀ videoInfo resp s2 (res : createRes),
        env.PostJSON (Sprintf videoCreateURL [.str tok, .str openid])
          (.createVideoReq videoInfo) s1 = ((resp, none), s2) →
        env.unmarshalCreateRes resp = (res, none) → res.Data.ErrCode = 0 →
        (Create env openid videoInfo w).1 = (res.Data, none)
        ∧ (Create env openid videoInfo w).1.1.ItemID = res.Data.ItemID) := by
  refine ⟨?_, ?_, ?_, ?_, ?_⟩
  · intro filename resp s2 res htr hdec hc
    simp [Upload, GetAccessToken, PostMultipartForm, Unmarshal, htok, htr, hdec, hc]
  · intro resp s2 res htr hdec hc
    simp [PartInit, GetAccessToken, HTTPPost, Unmarshal, htok, htr, hdec, hc]
  · intro uploadid partNumber filename resp s2 res htr hdec hc
    simp [PartUpload, GetAccessToken, PostMultipartForm, Unmarshal, htok, htr, hdec, hc]
  · intro uploadid resp s2 res htr hdec hc
    simp [PartComplete, GetAccessToken, HTTPPost, Unmarshal, htok, htr, hdec, hc]
  · intro videoInfo resp s2 res htr hdec hc
    simp [Create, GetAccessToken, PostJSON, Unmarshal, htok, htr, hdec, hc]

/-- Concrete run for C3: Upload against a provider answering errcode 0 with video v1,
height 720, width 1280 returns VideoID "v1", Height 720, Width 1280 and a nil error. -/
theorem success_returns_decoded_data_witness :
    uploadedEnv.GetAccessToken "u1" w0.state = (("T0", none), 1)
    ∧ (Upload uploadedEnv "u1" "a.mp4" w0).1
        = ({ ErrCode := 0, ErrMsg := "", Video := ⟨"v1", 720, 1280⟩ }, none) :=
  ⟨rfl,
   ((success_returns_decoded_data uploadedEnv "u1" w0 "T0" 1 rfl).1 "a.mp4" uploadedBody 2
     ⟨"", { ErrCode := 0, ErrMsg := "", Video := ⟨"v1", 720, 1280⟩ }⟩ rfl rfl rfl).1⟩

/-! ## Stage order and first failure -/

theorem Upload_stagesInOrder (env : Env ε σ) (openid filename : String) (w : World σ) :
    StagesInOrder w (Upload env openid filename w).2 := by
  rcases h1 : env.GetAccessToken openid w.state with ⟨⟨tok, _ | e⟩, s1⟩
  · rcases h2 : env.PostMultipartForm ⟨"video", filename⟩
        (Sprintf videoUploadURL [.str tok, .str openid]) s1 with ⟨⟨resp, _ | e⟩, s2⟩
    · rcases h3 : env.unmarshalUploadVideoRes resp with ⟨res, _ | e⟩
      · by_cases hc : res.Data.ErrCode = 0
        · exact ⟨[.GetAccessToken openid, .PostMultipartForm ⟨"video", filename⟩
            (Sprintf videoUploadURL [.str tok, .str openid]), .Unmarshal resp],
            by simp [Upload, GetAccessToken, PostMultipartForm, Unmarshal, h1, h2, h3, hc],
            by simp [Call.stage]⟩
        · exact ⟨[.GetAccessToken openid, .PostMultipartForm ⟨"video", filename⟩
            (Sprintf videoUploadURL [.str tok, .str openid]), .Unmarshal resp],
            by simp [Upload, GetAccessToken, PostMultipartForm, Unmarshal, h1, h2, h3, hc],
            by simp [Call.stage]⟩
      · exact ⟨[.GetAccessToken openid, .PostMultipartForm ⟨"video", filename⟩
            (Sprintf videoUploadURL [.str tok, .str openid]), .Unmarshal resp],
          by simp [Upload, GetAccessToken, PostMultipartForm, Unmarshal, h1, h2, h3],
          by simp [Call.stage]⟩
    · exact ⟨[.GetAccessToken openid, .PostMultipartForm ⟨"video", filename⟩
            (Sprintf videoUploadURL [.str tok, .str openid])],
        by simp [Upload, GetAccessToken, PostMultipartForm, h1, h2], by simp [Call.stage]⟩
  · exact ⟨[.GetAccessToken openid], by simp [Upload, GetAccessToken, h1],
      by simp [Call.stage]⟩

theorem PartInit_stagesInOrder (env : Env ε σ) (openid : String) (w : World σ) :
    StagesInOrder w (PartInit env openid w).2 := by
  rcases h1 : env.GetAccessToken openid w.state with ⟨⟨tok, _ | e⟩, s1⟩
  · rcases h2 : env.HTTPPost (Sprintf videoPartInitURL [.str tok, .str openid]) "" s1 with ⟨⟨resp, _ | e⟩, s2⟩
    · rcases h3 : env.unmarshalPartInfoRes resp with ⟨res, _ | e⟩
      · by_cases hc : res.Data.ErrCode = 0
        · exact ⟨[.GetAccessToken openid, .HTTPPost (Sprintf videoPartInitURL [.str tok, .str openid]) "", .Unmarshal resp],
            by simp [PartInit, GetAccessToken, HTTPPost, Unmarshal, h1, h2, h3, hc],
            by simp [Call.stage]⟩
        · exact ⟨[.GetAccessToken openid, .HTTPPost (Sprintf videoPartInitURL [.str tok, .str openid]) "", .Unmarshal resp],
            by simp [PartInit, GetAccessToken, HTTPPost, Unmarshal, h1, h2, h3, hc],
            by simp [Call.stage]⟩
      · exact ⟨[.GetAccessToken openid, .HTTPPost (Sprintf videoPartInitURL [.str tok, .str openid]) "", .Unmarshal resp],
          by simp [PartInit, GetAccessToken, HTTPPost, Unmarshal, h1, h2, h3],
          by simp [Call.stage]⟩
    · exact ⟨[.GetAccessToken openid, .HTTPPost (Sprintf videoPartInitURL [.str tok, .str openid]) ""],
        by simp [PartInit, GetAccessToken, HTTPPost, h1, h2], by simp [Call.stage]⟩
  · exact ⟨[.GetAccessToken openid], by simp [PartInit, GetAccessToken, h1],
      by simp [Call.stage]⟩

theorem PartUpload_stagesInOrder (env : Env ε σ) (openid uploadid : String) (partNumber : Int) (filename : String) (w : World σ) :
    StagesInOrder w (PartUpload env openid uploadid partNumber filename w).2 := by
  rcases h1 : env.GetAccessToken openid w.state with ⟨⟨tok, _ | e⟩, s1⟩
  · rcases h2 : env.PostMultipartForm ⟨"video", filename⟩
        (Sprintf videoPartUploadURL [.str tok, .str openid]) s1 with ⟨⟨resp, _ | e⟩, s2⟩
    · rcases h3 : env.unmarshalPartVideoRes resp with ⟨res, _ | e⟩
      · by_cases hc : res.Data.ErrCode = 0
        · exact ⟨[.GetAccessToken openid, .PostMultipartForm ⟨"video", filename⟩
            (Sprintf videoPartUploadURL [.str tok, .str openid]), .Unmarshal resp],
            by simp [PartUpload, GetAccessToken, PostMultipartForm, Unmarshal, h1, h2, h3, hc],
            by simp [Call.stage]⟩
        · exact ⟨[.GetAccessToken openid, .PostMultipartForm ⟨"video", filename⟩
            (Sprintf videoPartUploadURL [.str tok, .str openid]), .Unmarshal resp],
            by simp [PartUpload, GetAccessToken, PostMultipartForm, Unmarshal, h1, h2, h3, hc],
            by simp [Call.stage]⟩
      · exact ⟨[.GetAccessToken openid, .PostMultipartForm ⟨"video", filename⟩
            (Sprintf videoPartUploadURL [.str tok, .str openid]), .Unmarshal resp],
          by simp [PartUpload, GetAccessToken, PostMultipartForm, Unmarshal, h1, h2, h3],
          by simp [Call.stage]⟩
    · exact ⟨[.GetAccessToken openid, .PostMultipartForm ⟨"video", filename⟩
            (Sprintf videoPartUploadURL [.str tok, .str openid])],
        by simp [PartUpload, GetAccessToken, PostMultipartForm, h1, h2], by simp [Call.stage]⟩
  · exact ⟨[.GetAccessToken openid], by simp [PartUpload, GetAccessToken, h1],
      by simp [Call.stage]⟩

theorem PartComplete_stagesInOrder (env : Env ε σ) (openid uploadid : String) (w : World σ) :
    StagesInOrder w (PartComplete env openid uploadid w).2 := by
  rcases h1 : env.GetAccessToken openid w.state with ⟨⟨tok, _ | e⟩, s1⟩
  · rcases h2 : env.HTTPPost
        (Sprintf videoPartCompleteURL [.str tok, .str openid, .str uploadid]) "" s1 with ⟨⟨resp, _ | e⟩, s2⟩
    · rcases h3 : env.unmarshalUploadVideoRes resp with ⟨res, _ | e⟩
      · by_cases hc : res.Data.ErrCode = 0
        · exact ⟨[.GetAccessToken openid, .HTTPPost
            (Sprintf videoPartCompleteURL [.str tok, .str openid, .str uploadid]) "", .Unmarshal resp],
            by simp [PartComplete, GetAccessToken, HTTPPost, Unmarshal, h1, h2, h3, hc],
            by simp [Call.stage]⟩
        · exact ⟨[.GetAccessToken openid, .HTTPPost
            (Sprintf videoPartCompleteURL [.str tok, .str openid, .str uploadid]) "", .Unmarshal resp],
            by simp [PartComplete, GetAccessToken, HTTPPost, Unmarshal, h1, h2, h3, hc],
            by simp [Call.stage]⟩
      · exact ⟨[.GetAccessToken openid, .HTTPPost
            (Sprintf videoPartCompleteURL [.str tok, .str openid, .str uploadid]) "", .Unmarshal resp],
          by simp [PartComplete, GetAccessToken, HTTPPost, Unmarshal, h1, h2, h3],
          by simp [Call.stage]⟩
    · exact ⟨[.GetAccessToken openid, .HTTPPost
            (Sprintf videoPartCompleteURL [.str tok, .str openid, .str uploadid]) ""],
        by simp [PartComplete, GetAccessToken, HTTPPost, h1, h2], by simp [Call.stage]⟩
  · exact ⟨[.GetAccessToken openid], by simp [PartComplete, GetAccessToken, h1],
      by simp [Call.stage]⟩

theorem Create_stagesInOrder (env : Env ε σ) (openid : String) (videoInfo : Option CreateVideoReq) (w : World σ) :
    StagesInOrder w (Create env openid videoInfo w).2 := by
  rcases h1 : env.GetAccessToken openid w.state with ⟨⟨tok, _ | e⟩, s1⟩
  · rcases h2 : env.PostJSON (Sprintf videoCreateURL [.str tok, .str openid])
        (.createVideoReq videoInfo) s1 with ⟨⟨resp, _ | e⟩, s2⟩
    · rcases h3 : env.unmarshalCreateRes resp with ⟨res, _ | e⟩
      · by_cases hc : res.Data.ErrCode = 0
        · exact ⟨[.GetAccessToken openid, .PostJSON (Sprintf videoCreateURL [.str tok, .str openid])
            (.createVideoReq videoInfo), .Unmarshal resp],
            by simp [Create, GetAccessToken, PostJSON, Unmarshal, h1, h2, h3, hc],
            by simp [Call.stage]⟩
        · exact ⟨[.GetAccessToken openid, .PostJSON (Sprintf videoCreateURL [.str tok, .str openid])
            (.createVideoReq videoInfo), .Unmarshal resp],
            by simp [Create, GetAccessToken, PostJSON, Unmarshal, h1, h2, h3, hc],
            by simp [Call.stage]⟩
      · exact ⟨[.GetAccessToken openid, .PostJSON (Sprintf videoCreateURL [.str tok, .str openid])
            (.createVideoReq videoInfo), .Unmarshal resp],
          by simp [Create, GetAccessToken, PostJSON, Unmarshal, h1, h2, h3],
          by simp [Call.stage]⟩
    · exact ⟨[.GetAccessToken openid, .PostJSON (Sprintf videoCreateURL [.str tok, .str openid])
            (.createVideoReq videoInfo)],
        by simp [Create, GetAccessToken, PostJSON, h1, h2], by simp [Call.stage]⟩
  · exact ⟨[.GetAccessToken openid], by simp [Create, GetAccessToken, h1],
      by simp [Call.stage]⟩

/-- C4: in each of Upload, PartInit, PartUpload, PartComplete and Create the calls made
are an initial part of token, transport, decode (that order, each at most once, so nothing
is retried), and the first failing stage decides the outcome. After a successful token
call: if the single transport call fails with `e`, the operation returns exactly `e` and
the trace ends with the transport call, so nothing is decoded; if the transport succeeds
and `json.Unmarshal` fails with `e`, the operation returns exactly `e`, whatever the partly
decoded result holds (also a non-zero `ErrCode`), so the error is not the one of the
errcode check. -/
theorem first_failure_decides (env : Env ε σ) (openid : String) (w : World σ) :
    ((∀ filename, StagesInOrder w (Upload env openid filename w).2)
      ∧ StagesInOrder w (PartInit env openid w).2
      ∧ (∀ uploadid partNumber filename,
          StagesInOrder w (PartUpload env openid uploadid partNumber filename w).2)
      ∧ (∀ uploadid, StagesInOrder w (PartComplete env openid uploadid w).2)
      ∧ (∀ videoInfo, StagesInOrder w (Create env openid videoInfo w).2))
    ∧ (∀ tok s1, env.GetAccessToken openid w.state = ((tok, none), s1) →
      ((∀ filename resp s2 e,
          env.PostMultipartForm ⟨"video", filename⟩
            (Sprintf videoUploadURL [.str tok, .str openid]) s1 = ((resp, some e), s2) →
          Upload env openid filename w
            = ((Info.zero, some (.collab e)),
               ⟨s2, w.trace ++ [.GetAccessToken openid,
                  .PostMultipartForm ⟨"video", filename⟩
                    (Sprintf videoUploadURL [.str tok, .str openid])]⟩))
        ∧ (∀ resp s2 e,
          env.HTTPPost (Sprintf videoPartInitURL [.str tok, .str openid]) "" s1
            = ((resp, some e), s2) →
          PartInit env openid w
            = ((PartInfo.zero, some (.collab e)),
               ⟨s2, w.trace ++ [.GetAccessToken openid,
                  .HTTPPost (Sprintf videoPartInitURL [.str tok, .str openid]) ""]⟩))
        ∧ (∀ uploadid partNumber filename resp s2 e,
          env.PostMultipartForm ⟨"video", filename⟩
            (Sprintf videoPartUploadURL [.str tok, .str openid]) s1 = ((resp, some e), s2) →
          PartUpload env openid uploadid partNumber filename w
            = (some (.collab e),
               ⟨s2, w.trace ++ [.GetAccessToken openid,
                  .PostMultipartForm ⟨"video", filename⟩
                    (Sprintf videoPartUploadURL [.str tok, .str openid])]⟩))
        ∧ (∀ uploadid resp s2 e,
          env.HTTPPost (Sprintf videoPartCompleteURL [.str tok, .str openid, .str uploadid])
            "" s1 = ((resp, some e), s2) →
          PartComplete env openid uploadid w
            = ((Info.zero, some (.collab e)),
               ⟨s2, w.trace ++ [.GetAccessToken openid,
                  .HTTPPost
                    (Sprintf videoPartCompleteURL [.str tok, .str openid, .str uploadid])
                    ""]⟩))
        ∧ (∀ videoInfo resp s2 e,
          env.PostJSON (Sprintf videoCreateURL [.str tok, .str openid])
            (.createVideoReq videoInfo) s1 = ((resp, some e), s2) →
          Create env openid videoInfo w
            = ((CreateInfo.zero, some (.collab e)),
               ⟨s2, w.trace ++ [.GetAccessToken openid,
                  .PostJSON (Sprintf videoCreateURL [.str tok, .str openid])
                    (.createVideoReq videoInfo)]⟩)))
      ∧ ((∀ filename resp s2 (res : uploadVideoRes) e,
          env.PostMultipartForm ⟨"video", filename⟩
            (Sprintf videoUploadURL [.str tok, .str openid]) s1 = ((resp, none), s2) →
          env.unmarshalUploadVideoRes resp = (res, some e) →
          Upload env openid filename w
            = ((Info.zero, some (.collab e)),
               ⟨s2, w.trace ++ [.GetAccessToken openid,
                  .PostMultipartForm ⟨"video", filename⟩
                    (Sprintf videoUploadURL [.str tok, .str openid]),
                  .Unmarshal resp]⟩))
        ∧ (∀ resp s2 (res : partInfoRes) e,
          env.HTTPPost (Sprintf videoPartInitURL [.str tok, .str openid]) "" s1
            = ((resp, none), s2) →
          env.unmarshalPartInfoRes resp = (res, some e) →
          PartInit env openid w
            = ((PartInfo.zero, some (.collab e)),
               ⟨s2, w.trace ++ [.GetAccessToken openid,
                  .HTTPPost (Sprintf videoPartInitURL [.str tok, .str openid]) "",
                  .Unmarshal resp]⟩))
        ∧ (∀ uploadid partNumber filename resp s2 (res : partVideoRes) e,
          env.PostMultipartForm ⟨"video", filename⟩
            (Sprintf videoPartUploadURL [.str tok, .str openid]) s1 = ((resp, none), s2) →
          env.unmarshalPartVideoRes resp = (res, some e) →
          PartUpload env openid uploadid partNumber filename w
            = (some (.collab e),
               ⟨s2, w.trace ++ [.GetAccessToken openid,
                  .PostMultipartForm ⟨"video", filename⟩
                    (Sprintf videoPartUploadURL [.str tok, .str openid]),
                  .Unmarshal resp]⟩))
        ∧ (∀ uploadid resp s2 (res : uploadVideoRes) e,
          env.HTTPPost (Sprintf videoPartCompleteURL [.str tok, .str openid, .str uploadid])
            "" s1 = ((resp, none), s2) →
          env.unmarshalUploadVideoRes resp = (res, some e) →
          PartComplete env openid uploadid w
            = ((Info.zero, some (.collab e)),
               ⟨s2, w.trace ++ [.GetAccessToken openid,
                  .HTTPPost
                    (Sprintf videoPartCompleteURL [.str tok, .str openid, .str uploadid])
                    "",
                  .Unmarshal resp]⟩))
        ∧ (∀ videoInfo resp s2 (res : createRes) e,
          env.PostJSON (Sprintf videoCreateURL [.str tok, .str openid])
            (.createVideoReq videoInfo) s1 = ((resp, none), s2) →
          env.unmarshalCreateRes resp = (res, some e) →
          Create env openid videoInfo w
            = ((CreateInfo.zero, some (.collab e)),
               ⟨s2, w.trace ++ [.GetAccessToken openid,
                  .PostJSON (Sprintf videoCreateURL [.str tok, .str openid])
                    (.createVideoReq videoInfo),
                  .Unmarshal resp]⟩)))) := by
  refine ⟨⟨fun _ => Upload_stagesInOrder .., PartInit_stagesInOrder ..,
    fun _ _ _ => PartUpload_stagesInOrder .., fun _ => PartComplete_stagesInOrder ..,
    fun _ => Create_stagesInOrder ..⟩, ?_⟩
  intro tok s1 htok
  refine ⟨⟨?_, ?_, ?_, ?_, ?_⟩, ⟨?_, ?_, ?_, ?_, ?_⟩⟩
  · intro filename resp s2 e htr
    simp [Upload, GetAccessToken, PostMultipartForm, htok, htr]
  · intro resp s2 e htr
    simp [PartInit, GetAccessToken, HTTPPost, htok, htr]
  · intro uploadid partNumber filename resp s2 e htr
    simp [PartUpload, GetAccessToken, PostMultipartForm, htok, htr]
  · intro uploadid resp s2 e htr
    simp [PartComplete, GetAccessToken, HTTPPost, htok, htr]
  · intro videoInfo resp s2 e htr
    simp [Create, GetAccessToken, PostJSON, htok, htr]
  · intro filename resp s2 res e htr hdec
    simp [Upload, GetAccessToken, PostMultipartForm, Unmarshal, htok, htr, hdec]
  · intro resp s2 res e htr hdec
    simp [PartInit, GetAccessToken, HTTPPost, Unmarshal, htok, htr, hdec]
  · intro uploadid partNumber filename resp s2 res e htr hdec
    simp [PartUpload, GetAccessToken, PostMultipartForm, Unmarshal, htok, htr, hdec]
  · intro uploadid resp s2 res e htr hdec
    simp [PartComplete, GetAccessToken, HTTPPost, Unmarshal, htok, htr, hdec]
  · intro videoInfo resp s2 res e htr hdec
    simp [Create, GetAccessToken, PostJSON, Unmarshal, htok, htr, hdec]

/-- Concrete runs for C4: with the transport down, Create returns "connection refused"
after the token call and one JSON post, without decoding; with a body whose `errmsg` is a
number, PartInit returns the decoder's error although the partly decoded `ErrCode` is 5. -/
theorem first_failure_decides_witness :
    transportDownEnv.GetAccessToken "u1" w0.state = (("T0", none), 1)
    ∧ Create transportDownEnv "u1" none w0
        = ((CreateInfo.zero, some (.collab "connection refused")),
           ⟨2, [.GetAccessToken "u1",
                .PostJSON (Sprintf videoCreateURL [.str "T0", .str "u1"])
                  (.createVideoReq none)]⟩)
    ∧ mistypedEnv.unmarshalPartInfoRes mistypedBody
        = (⟨"", { ErrCode := 5, ErrMsg := "", UploadID := "" }⟩,
           some "json: cannot unmarshal number into Go struct field of type string")
    ∧ PartInit mistypedEnv "u1" w0
        = ((PartInfo.zero,
            some (.collab "json: cannot unmarshal number into Go struct field of type string")),
           ⟨2, [.GetAccessToken "u1",
                .HTTPPost (Sprintf videoPartInitURL [.str "T0", .str "u1"]) "",
                .Unmarshal mistypedBody]⟩) :=
  ⟨rfl,
   ((first_failure_decides transportDownEnv "u1" w0).2 "T0" 1 rfl).1.2.2.2.2 none [] 2
     "connection refused" rfl,
   rfl,
   ((first_failure_decides mistypedEnv "u1" w0).2 "T0" 1 rfl).2.2.1 mistypedBody 2
     ⟨"", { ErrCode := 5, ErrMsg := "", UploadID := "" }⟩
     "json: cannot unmarshal number into Go struct field of type string" rfl rfl⟩

/-! ## What is sent to the transport -/

theorem Upload_singleTransportCall (env : Env ε σ) (openid filename : String) (w : World σ)
    (tok : String) (s1 : σ)
    (h1 : env.GetAccessToken openid w.state = ((tok, none), s1)) :
    SingleTransportCall w (Upload env openid filename w).2 openid
      (.PostMultipartForm ⟨"video", filename⟩
        (Sprintf videoUploadURL [.str tok, .str openid])) := by
  refine ⟨rfl, ?_⟩
  rcases h2 : env.PostMultipartForm ⟨"video", filename⟩
      (Sprintf videoUploadURL [.str tok, .str openid]) s1 with ⟨⟨resp, _ | e⟩, s2⟩
  · rcases h3 : env.unmarshalUploadVideoRes resp with ⟨res, _ | e⟩
    · by_cases hc : res.Data.ErrCode = 0
      · exact ⟨[.Unmarshal resp],
          by simp [Upload, GetAccessToken, PostMultipartForm, Unmarshal, h1, h2, h3, hc],
          by simp [Call.stage]⟩
      · exact ⟨[.Unmarshal resp],
          by simp [Upload, GetAccessToken, PostMultipartForm, Unmarshal, h1, h2, h3, hc],
          by simp [Call.stage]⟩
    · exact ⟨[.Unmarshal resp],
        by simp [Upload, GetAccessToken, PostMultipartForm, Unmarshal, h1, h2, h3],
        by simp [Call.stage]⟩
  · exact ⟨[], by simp [Upload, GetAccessToken, PostMultipartForm, h1, h2], by simp⟩

theorem PartInit_singleTransportCall (env : Env ε σ) (openid : String) (w : World σ)
    (tok : String) (s1 : σ)
    (h1 : env.GetAccessToken openid w.state = ((tok, none), s1)) :
    SingleTransportCall w (PartInit env openid w).2 openid
      (.HTTPPost (Sprintf videoPartInitURL [.str tok, .str openid]) "") := by
  refine ⟨rfl, ?_⟩
  rcases h2 : env.HTTPPost (Sprintf videoPartInitURL [.str tok, .str openid]) "" s1 with ⟨⟨resp, _ | e⟩, s2⟩
  · rcases h3 : env.unmarshalPartInfoRes resp with ⟨res, _ | e⟩
    · by_cases hc : res.Data.ErrCode = 0
      · exact ⟨[.Unmarshal resp],
          by simp [PartInit, GetAccessToken, HTTPPost, Unmarshal, h1, h2, h3, hc],
          by simp [Call.stage]⟩
      · exact ⟨[.Unmarshal resp],
          by simp [PartInit, GetAccessToken, HTTPPost, Unmarshal, h1, h2, h3, hc],
          by simp [Call.stage]⟩
    · exact ⟨[.Unmarshal resp],
        by simp [PartInit, GetAccessToken, HTTPPost, Unmarshal, h1, h2, h3],
        by simp [Call.stage]⟩
  · exact ⟨[], by simp [PartInit, GetAccessToken, HTTPPost, h1, h2], by simp⟩

theorem PartUpload_singleTransportCall (env : Env ε σ) (openid uploadid : String) (partNumber : Int) (filename : String) (w : World σ)
    (tok : String) (s1 : σ)
    (h1 : env.GetAccessToken openid w.state = ((tok, none), s1)) :
    SingleTransportCall w (PartUpload env openid uploadid partNumber filename w).2 openid
      (.PostMultipartForm ⟨"video", filename⟩
        (Sprintf videoPartUploadURL [.str tok, .str openid])) := by
  refine ⟨rfl, ?_⟩
  rcases h2 : env.PostMultipartForm ⟨"video", filename⟩
      (Sprintf videoPartUploadURL [.str tok, .str openid]) s1 with ⟨⟨resp, _ | e⟩, s2⟩
  · rcases h3 : env.unmarshalPartVideoRes resp with ⟨res, _ | e⟩
    · by_cases hc : res.Data.ErrCode = 0
      · exact ⟨[.Unmarshal resp],
          by simp [PartUpload, GetAccessToken, PostMultipartForm, Unmarshal, h1, h2, h3, hc],
          by simp [Call.stage]⟩
      · exact ⟨[.Unmarshal resp],
          by simp [PartUpload, GetAccessToken, PostMultipartForm, Unmarshal, h1, h2, h3, hc],
          by simp [Call.stage]⟩
    · exact ⟨[.Unmarshal resp],
        by simp [PartUpload, GetAccessToken, PostMultipartForm, Unmarshal, h1, h2, h3],
        by simp [Call.stage]⟩
  · exact ⟨[], by simp [PartUpload, GetAccessToken, PostMultipartForm, h1, h2], by simp⟩

theorem PartComplete_singleTransportCall (env : Env ε σ) (openid uploadid : String) (w : World σ)
    (tok : String) (s1 : σ)
    (h1 : env.GetAccessToken openid w.state = ((tok, none), s1)) :
    SingleTransportCall w (PartComplete env openid uploadid w).2 openid
      (.HTTPPost
        (Sprintf videoPartCompleteURL [.str tok, .str openid, .str uploadid]) "") := by
  refine ⟨rfl, ?_⟩
  rcases h2 : env.HTTPPost
      (Sprintf videoPartCompleteURL [.str tok, .str openid, .str uploadid]) "" s1 with ⟨⟨resp, _ | e⟩, s2⟩
  · rcases h3 : env.unmarshalUploadVideoRes resp with ⟨res, _ | e⟩
    · by_cases hc : res.Data.ErrCode = 0
      · exact ⟨[.Unmarshal resp],
          by simp [PartComplete, GetAccessToken, HTTPPost, Unmarshal, h1, h2, h3, hc],
          by simp [Call.stage]⟩
      · exact ⟨[.Unmarshal resp],
          by simp [PartComplete, GetAccessToken, HTTPPost, Unmarshal, h1, h2, h3, hc],
          by simp [Call.stage]⟩
    · exact ⟨[.Unmarshal resp],
        by simp [PartComplete, GetAccessToken, HTTPPost, Unmarshal, h1, h2, h3],
        by simp [Call.stage]⟩
  · exact ⟨[], by simp [PartComplete, GetAccessToken, HTTPPost, h1, h2], by simp⟩

theorem Create_singleTransportCall (env : Env ε σ) (openid : String) (videoInfo : Option CreateVideoReq) (w : World σ)
    (tok : String) (s1 : σ)
    (h1 : env.GetAccessToken openid w.state = ((tok, none), s1)) :
    SingleTransportCall w (Create env openid videoInfo w).2 openid
      (.PostJSON (Sprintf videoCreateURL [.str tok, .str openid])
        (.createVideoReq videoInfo)) := by
  refine ⟨rfl, ?_⟩
  rcases h2 : env.PostJSON (Sprintf videoCreateURL [.str tok, .str openid])
      (.createVideoReq videoInfo) s1 with ⟨⟨resp, _ | e⟩, s2⟩
  · rcases h3 : env.unmarshalCreateRes resp with ⟨res, _ | e⟩
    · by_cases hc : res.Data.ErrCode = 0
      · exact ⟨[.Unmarshal resp],
          by simp [Create, GetAccessToken, PostJSON, Unmarshal, h1, h2, h3, hc],
          by simp [Call.stage]⟩
      · exact ⟨[.Unmarshal resp],
          by simp [Create, GetAccessToken, PostJSON, Unmarshal, h1, h2, h3, hc],
          by simp [Call.stage]⟩
    · exact ⟨[.Unmarshal resp],
        by simp [Create, GetAccessToken, PostJSON, Unmarshal, h1, h2, h3],
        by simp [Call.stage]⟩
  · exact ⟨[], by simp [Create, GetAccessToken, PostJSON, h1, h2], by simp⟩

theorem Delete_singleTransportCall (env : Env ε σ) (openid itemid : String) (w : World σ)
    (tok : String) (s1 : σ)
    (h1 : env.GetAccessToken openid w.state = ((tok, none), s1)) :
    SingleTransportCall w (Delete env openid itemid w).2 openid
      (.PostJSON (Sprintf videoCreateURL [.str tok, .str openid])
        (.deleteVideoReq ⟨itemid⟩)) := by
  refine ⟨rfl, ?_⟩
  rcases h2 : env.PostJSON (Sprintf videoCreateURL [.str tok, .str openid])
      (.deleteVideoReq ⟨itemid⟩) s1 with ⟨⟨resp, _ | e⟩, s2⟩
  · rcases h3 : env.unmarshalDeleteVideoRes resp with ⟨res, _ | e⟩
    · by_cases hc : res.Data.ErrCode = 0
      · exact ⟨[.Unmarshal resp],
          by simp [Delete, GetAccessToken, PostJSON, Unmarshal, h1, h2, h3, hc],
          by simp [Call.stage]⟩
      · exact ⟨[.Unmarshal resp],
          by simp [Delete, GetAccessToken, PostJSON, Unmarshal, h1, h2, h3, hc],
          by simp [Call.stage]⟩
    · exact ⟨[.Unmarshal resp],
        by simp [Delete, GetAccessToken, PostJSON, Unmarshal, h1, h2, h3],
        by simp [Call.stage]⟩
  · exact ⟨[], by simp [Delete, GetAccessToken, PostJSON, h1, h2], by simp⟩

/-- C5: PartUpload does not depend on `uploadid` and `partNumber`. Two calls that differ
only in these arguments have the same outcome (same error, same calls with the same
arguments, same final world); and once the token call has succeeded with `tok`, the one
transport call is PostMultipartForm with the field (Fieldname "video", Filename filename)
and the URL `https://open.douyin.com/video/part/upload?access_token=<tok>&open_id=<openid>`,
in which neither argument occurs. -/
theorem PartUpload_ignores_uploadid_partNumber (env : Env ε σ) (openid filename : String)
    (u1 u2 : String) (n1 n2 : Int) (w : World σ) :
    PartUpload env openid u1 n1 filename w = PartUpload env openid u2 n2 filename w
    ∧ (∀ tok s1, env.GetAccessToken openid w.state = ((tok, none), s1) →
        SingleTransportCall w (PartUpload env openid u1 n1 filename w).2 openid
          (.PostMultipartForm { Fieldname := "video", Filename := filename }
            ("https://open.douyin.com" ++ "/video/part/upload" ++ "?access_token=" ++ tok
              ++ "&open_id=" ++ openid))) := by
  refine ⟨rfl, ?_⟩
  intro tok s1 htok
  rw [← partUploadURL_eq]
  exact PartUpload_singleTransportCall env openid u1 n1 filename w tok s1 htok

/-- Concrete run for C5: part 1 of session "up-1" and part 2 of session "up-2" send the
same request. -/
theorem PartUpload_ignores_uploadid_partNumber_witness :
    baseEnv.GetAccessToken "u1" w0.state = (("T0", none), 1)
    ∧ PartUpload baseEnv "u1" "up-1" 1 "a.mp4" w0 = PartUpload baseEnv "u1" "up-2" 2 "a.mp4" w0
    ∧ SingleTransportCall w0 (PartUpload baseEnv "u1" "up-1" 1 "a.mp4" w0).2 "u1"
        (.PostMultipartForm { Fieldname := "video", Filename := "a.mp4" }
          ("https://open.douyin.com" ++ "/video/part/upload" ++ "?access_token=" ++ "T0"
            ++ "&open_id=" ++ "u1")) :=
  ⟨rfl,
   (PartUpload_ignores_uploadid_partNumber baseEnv "u1" "a.mp4" "up-1" "up-2" 1 2 w0).1,
   (PartUpload_ignores_uploadid_partNumber baseEnv "u1" "a.mp4" "up-1" "up-2" 1 2 w0).2
     "T0" 1 rfl⟩

/-- C6: once the token provider has returned `tok`, the URL each operation passes to its
single transport call is `https://open.douyin.com`, the path of the operation, and the
query `?access_token=<tok>&open_id=<openid>`: /video/upload for Upload, /video/part/init
for PartInit, /video/part/upload for PartUpload (whatever its uploadid and partNumber),
/video/create for Create, and /video/part/complete for PartComplete, whose URL alone
carries the session id, as the suffix `&upload_id=<uploadid>`. -/
theorem transport_urls (env : Env ε σ) (openid : String) (w : World σ)
    (tok : String) (s1 : σ)
    (htok : env.GetAccessToken openid w.state = ((tok, none), s1)) :
    (∀ filename, SingleTransportCall w (Upload env openid filename w).2 openid
        (.PostMultipartForm { Fieldname := "video", Filename := filename }
          ("https://open.douyin.com" ++ "/video/upload" ++ "?access_token=" ++ tok
            ++ "&open_id=" ++ openid)))
    ∧ SingleTransportCall w (PartInit env openid w).2 openid
        (.HTTPPost
          ("https://open.douyin.com" ++ "/video/part/init" ++ "?access_token=" ++ tok
            ++ "&open_id=" ++ openid) "")
    ∧ (∀ uploadid partNumber filename,
        SingleTransportCall w (PartUpload env openid uploadid partNumber filename w).2 openid
          (.PostMultipartForm { Fieldname := "video", Filename := filename }
            ("https://open.douyin.com" ++ "/video/part/upload" ++ "?access_token=" ++ tok
              ++ "&open_id=" ++ openid)))
    ∧ (∀ uploadid, SingleTransportCall w (PartComplete env openid uploadid w).2 openid
        (.HTTPPost
          ("https://open.douyin.com" ++ "/video/part/complete" ++ "?access_token=" ++ tok
            ++ "&open_id=" ++ openid ++ "&upload_id=" ++ uploadid) ""))
    ∧ (∀ videoInfo, SingleTransportCall w (Create env openid videoInfo w).2 openid
        (.PostJSON
          ("https://open.douyin.com" ++ "/video/create" ++ "?access_token=" ++ tok
            ++ "&open_id=" ++ openid) (.createVideoReq videoInfo)))
    ∧ (∀ uploadid, occursIn uploadid
        ("https://open.douyin.com" ++ "/video/part/complete" ++ "?access_token=" ++ tok
            ++ "&open_id=" ++ openid ++ "&upload_id=" ++ uploadid)) := by
  refine ⟨?_, ?_, ?_, ?_, ?_, ?_⟩
  · intro filename
    rw [← uploadURL_eq]
    exact Upload_singleTransportCall env openid filename w tok s1 htok
  · rw [← partInitURL_eq]
    exact PartInit_singleTransportCall env openid w tok s1 htok
  · intro uploadid partNumber filename
    rw [← partUploadURL_eq]
    exact PartUpload_singleTransportCall env openid uploadid partNumber filename w tok s1 htok
  · intro uploadid
    rw [← partCompleteURL_eq]
    exact PartComplete_singleTransportCall env openid uploadid w tok s1 htok
  · intro videoInfo
    rw [← createURL_eq]
    exact Create_singleTransportCall env openid videoInfo w tok s1 htok
  · intro uploadid
    exact ⟨("https://open.douyin.com" ++ "/video/part/complete" ++ "?access_token=" ++ tok
      ++ "&open_id=" ++ openid ++ "&upload_id=").data, [], by simp [String.data_append]⟩

/-- Concrete run for C6: with token "T0" for open id "u1", PartComplete of session "up-1"
posts to the completion URL with the three query parameters. -/
theorem transport_urls_witness :
    baseEnv.GetAccessToken "u1" w0.state = (("T0", none), 1)
    ∧ SingleTransportCall w0 (PartComplete baseEnv "u1" "up-1" w0).2 "u1"
        (.HTTPPost
          ("https://open.douyin.com" ++ "/video/part/complete" ++ "?access_token=" ++ "T0"
            ++ "&open_id=" ++ "u1" ++ "&upload_id=" ++ "up-1") "") :=
  ⟨rfl, (transport_urls baseEnv "u1" w0 "T0" 1 rfl).2.2.2.1 "up-1"⟩

/-- C7: once the token provider has returned `tok`, Delete applies the transport exactly
once: it runs `util.PostJSON` on the URL built from `videoCreateURL` and on the
`deleteVideoReq` holding `itemid`, which encodes to the object with the single member
`item_id` = itemid. Delete's whole outcome is fixed by that one application: if the post
fails, the world is the one the post left and the calls are token, post; if it succeeds
with body `resp`, the world is the one the post left and the calls are token, post,
decode of `resp`. Create, for the same token and open id, applies `util.PostJSON` to the
same URL, `https://open.douyin.com/video/create?access_token=<tok>&open_id=<openid>`, and
its world is likewise the one that post left. That URL is no instance of the
`videoDeleteURL` template, which is never used. -/
theorem Delete_posts_to_create_url (env : Env ε σ) (openid itemid : String) (w : World σ)
    (tok : String) (s1 : σ)
    (htok : env.GetAccessToken openid w.state = ((tok, none), s1)) :
    SingleTransportCall w (Delete env openid itemid w).2 openid
        (.PostJSON (Sprintf videoCreateURL [.str tok, .str openid])
          (.deleteVideoReq { ItemID := itemid }))
    ∧ (∀ resp e s2,
        env.PostJSON (Sprintf videoCreateURL [.str tok, .str openid])
          (.deleteVideoReq { ItemID := itemid }) s1 = ((resp, some e), s2) →
        Delete env openid itemid w
          = ((), ⟨s2, w.trace ++ [.GetAccessToken openid,
                .PostJSON (Sprintf videoCreateURL [.str tok, .str openid])
                  (.deleteVideoReq { ItemID := itemid })]⟩))
    ∧ (∀ resp s2,
        env.PostJSON (Sprintf videoCreateURL [.str tok, .str openid])
          (.deleteVideoReq { ItemID := itemid }) s1 = ((resp, none), s2) →
        Delete env openid itemid w
          = ((), ⟨s2, w.trace ++ [.GetAccessToken openid,
                .PostJSON (Sprintf videoCreateURL [.str tok, .str openid])
                  (.deleteVideoReq { ItemID := itemid }),
                .Unmarshal resp]⟩))
    ∧ (Delete env openid itemid w).2.state
        = (env.PostJSON (Sprintf videoCreateURL [.str tok, .str openid])
            (.deleteVideoReq { ItemID := itemid }) s1).2
    ∧ (JSONArg.deleteVideoReq { ItemID := itemid }).marshal
        = .obj [("item_id", .str itemid)]
    ∧ (∀ videoInfo, SingleTransportCall w (Create env openid videoInfo w).2 openid
        (.PostJSON (Sprintf videoCreateURL [.str tok, .str openid])
          (.createVideoReq videoInfo)))
    ∧ (∀ videoInfo, (Create env openid videoInfo w).2.state
        = (env.PostJSON (Sprintf videoCreateURL [.str tok, .str openid])
            (.createVideoReq videoInfo) s1).2)
    ∧ Sprintf videoCreateURL [.str tok, .str openid]
        = "https://open.douyin.com" ++ "/video/create" ++ "?access_token=" ++ tok
            ++ "&open_id=" ++ openid
    ∧ (∀ a b, Sprintf videoCreateURL [.str tok, .str openid]
        ≠ Sprintf videoDeleteURL [.str a, .str b]) := by
  refine ⟨Delete_singleTransportCall env openid itemid w tok s1 htok, ?_, ?_, ?_, rfl,
    fun videoInfo => Create_singleTransportCall env openid videoInfo w tok s1 htok, ?_,
    createURL_eq tok openid, fun a b => createURL_ne_deleteURL tok openid a b⟩
  · intro resp e s2 htr
    simp [Delete, GetAccessToken, PostJSON, htok, htr]
  · intro resp s2 htr
    rcases h3 : env.unmarshalDeleteVideoRes resp with ⟨res, _ | e⟩
    · by_cases hc : res.Data.ErrCode = 0
      · simp [Delete, GetAccessToken, PostJSON, Unmarshal, htok, htr, h3, hc]
      · simp [Delete, GetAccessToken, PostJSON, Unmarshal, htok, htr, h3, hc]
    · simp [Delete, GetAccessToken, PostJSON, Unmarshal, htok, htr, h3]
  · rcases h2 : env.PostJSON (Sprintf videoCreateURL [.str tok, .str openid])
        (.deleteVideoReq { ItemID := itemid }) s1 with ⟨⟨resp, _ | e⟩, s2⟩
    · rcases h3 : env.unmarshalDeleteVideoRes resp with ⟨res, _ | e⟩
      · by_cases hc : res.Data.ErrCode = 0
        · simp [Delete, GetAccessToken, PostJSON, Unmarshal, htok, h2, h3, hc]
        · simp [Delete, GetAccessToken, PostJSON, Unmarshal, htok, h2, h3, hc]
      · simp [Delete, GetAccessToken, PostJSON, Unmarshal, htok, h2, h3]
    · simp [Delete, GetAccessToken, PostJSON, htok, h2]
  · intro videoInfo
    rcases h2 : env.PostJSON (Sprintf videoCreateURL [.str tok, .str openid])
        (.createVideoReq videoInfo) s1 with ⟨⟨resp, _ | e⟩, s2⟩
    · rcases h3 : env.unmarshalCreateRes resp with ⟨res, _ | e⟩
      · by_cases hc : res.Data.ErrCode = 0
        · simp [Create, GetAccessToken, PostJSON, Unmarshal, htok, h2, h3, hc]
        · simp [Create, GetAccessToken, PostJSON, Unmarshal, htok, h2, h3, hc]
      · simp [Create, GetAccessToken, PostJSON, Unmarshal, htok, h2, h3]
    · simp [Create, GetAccessToken, PostJSON, htok, h2]

/-- Concrete run for C7: in an environment that tells the endpoints apart, deleting item
"item9" for open id "u1" with token "T0" leaves the world at 11, the mark of one post to
the create URL (a post to the delete URL would leave 21, no post 1), and decodes
`deletedBody`, the answer given only to a `deleteVideoReq` for "item9". -/
theorem Delete_posts_to_create_url_witness :
    routedEnv.GetAccessToken "u1" w0.state = (("T0", none), 1)
    ∧ routedEnv.PostJSON (Sprintf videoCreateURL [.str "T0", .str "u1"])
        (.deleteVideoReq { ItemID := "item9" }) 1 = ((deletedBody, none), 11)
    ∧ routedEnv.PostJSON (Sprintf videoDeleteURL [.str "T0", .str "u1"])
        (.deleteVideoReq { ItemID := "item9" }) 1 = ((deletedBody, none), 21)
    ∧ Delete routedEnv "u1" "item9" w0
        = ((), ⟨11, [.GetAccessToken "u1",
              .PostJSON (Sprintf videoCreateURL [.str "T0", .str "u1"])
                (.deleteVideoReq { ItemID := "item9" }),
              .Unmarshal deletedBody]⟩)
    ∧ (Create routedEnv "u1" none w0).2.state = 11
    ∧ Sprintf videoCreateURL [.str "T0", .str "u1"]
        = "https://open.douyin.com" ++ "/video/create" ++ "?access_token=" ++ "T0"
            ++ "&open_id=" ++ "u1" :=
  ⟨rfl, by decide, by decide,
   (Delete_posts_to_create_url routedEnv "u1" "item9" w0 "T0" 1 rfl).2.2.1 deletedBody 11
     (by decide),
   (Delete_posts_to_create_url routedEnv "u1" "item9" w0 "T0" 1 rfl).2.2.2.2.2.2.1 none,
   (Delete_posts_to_create_url routedEnv "u1" "item9" w0 "T0" 1 rfl).2.2.2.2.2.2.2.1⟩

/-- C8: Delete has no result. Whatever the collaborators do (token failure, transport
failure, decode failure, non-zero errcode, or success), for any two environments,
arguments and worlds the value Delete hands back is the same, so no outcome of the
collaborators can be told from it. -/
theorem Delete_result_unobservable (env1 env2 : Env ε σ) (openid1 itemid1 openid2 itemid2 : String)
    (w1 w2 : World σ) :
    (Delete env1 openid1 itemid1 w1).1 = (Delete env2 openid2 itemid2 w2).1 :=
  rfl

/-! ## The request body of Create -/

/-- C9 (fails on the code): Create hands `sampleReq` (GameID "g1") to its JSON post, and the
encoding of that argument keys thirteen fields by their snake_case names but puts GameID
under the member name "string"; there is no member "game_id". -/
theorem Create_body_GameID_under_string :
    SingleTransportCall w0 (Create baseEnv "u1" (some sampleReq) w0).2 "u1"
        (.PostJSON (Sprintf videoCreateURL [.str "T0", .str "u1"])
          (.createVideoReq (some sampleReq)))
    ∧ (JSONArg.createVideoReq (some sampleReq)).marshal.keys
        = ["video_id", "cover_tsp", "string", "poi_id", "text", "micro_app_url",
           "micro_app_id", "micro_app_title", "at_users", "game_content",
           "timeliness_keyword", "timeliness_label", "article_id", "article_title"]
    ∧ (JSONArg.createVideoReq (some sampleReq)).marshal.member "string" = some (.str "g1")
    ∧ (JSONArg.createVideoReq (some sampleReq)).marshal.member "game_id" = none :=
  ⟨Create_singleTransportCall baseEnv "u1" (some sampleReq) w0 "T0" 1 rfl, rfl, rfl, rfl⟩

/-! ## Results on failure -/

/-- C10: whenever Upload, PartInit, PartComplete or Create returns a non-nil error (from
the token provider, the transport, the decoder or a non-zero errcode), the result returned
with it is the zero value of its type: the decoded errcode, errmsg and other data fields
are not copied into it. -/
theorem error_returns_zero_result (env : Env ε σ) (openid : String) (w : World σ) :
    (∀ filename, (Upload env openid filename w).1.2 ≠ none →
        (Upload env openid filename w).1.1 = Info.zero)
    ∧ ((PartInit env openid w).1.2 ≠ none → (PartInit env openid w).1.1 = PartInfo.zero)
    ∧ (∀ uploadid, (PartComplete env openid uploadid w).1.2 ≠ none →
        (PartComplete env openid uploadid w).1.1 = Info.zero)
    ∧ (∀ videoInfo, (Create env openid videoInfo w).1.2 ≠ none →
        (Create env openid videoInfo w).1.1 = CreateInfo.zero) := by
  refine ⟨?_, ?_, ?_, ?_⟩
  · intro filename herr
    rcases h1 : env.GetAccessToken openid w.state with ⟨⟨tok, _ | e⟩, s1⟩
    · rcases h2 : env.PostMultipartForm ⟨"video", filename⟩
          (Sprintf videoUploadURL [.str tok, .str openid]) s1 with ⟨⟨resp, _ | e⟩, s2⟩
      · rcases h3 : env.unmarshalUploadVideoRes resp with ⟨res, _ | e⟩
        · by_cases hc : res.Data.ErrCode = 0
          · simp [Upload, GetAccessToken, PostMultipartForm, Unmarshal, h1, h2, h3, hc]
              at herr
          · simp [Upload, GetAccessToken, PostMultipartForm, Unmarshal, h1, h2, h3, hc]
        · simp [Upload, GetAccessToken, PostMultipartForm, Unmarshal, h1, h2, h3]
      · simp [Upload, GetAccessToken, PostMultipartForm, h1, h2]
    · simp [Upload, GetAccessToken, h1]
  · intro herr
    rcases h1 : env.GetAccessToken openid w.state with ⟨⟨tok, _ | e⟩, s1⟩
    · rcases h2 : env.HTTPPost (Sprintf videoPartInitURL [.str tok, .str openid]) "" s1
        with ⟨⟨resp, _ | e⟩, s2⟩
      · rcases h3 : env.unmarshalPartInfoRes resp with ⟨res, _ | e⟩
        · by_cases hc : res.Data.ErrCode = 0
          · simp [PartInit, GetAccessToken, HTTPPost, Unmarshal, h1, h2, h3, hc] at herr
          · simp [PartInit, GetAccessToken, HTTPPost, Unmarshal, h1, h2, h3, hc]
        · simp [PartInit, GetAccessToken, HTTPPost, Unmarshal, h1, h2, h3]
      · simp [PartInit, GetAccessToken, HTTPPost, h1, h2]
    · simp [PartInit, GetAccessToken, h1]
  · intro uploadid herr
    rcases h1 : env.GetAccessToken openid w.state with ⟨⟨tok, _ | e⟩, s1⟩
    · rcases h2 : env.HTTPPost
          (Sprintf videoPartCompleteURL [.str tok, .str openid, .str uploadid]) "" s1
        with ⟨⟨resp, _ | e⟩, s2⟩
      · rcases h3 : env.unmarshalUploadVideoRes resp with ⟨res, _ | e⟩
        · by_cases hc : res.Data.ErrCode = 0
          · simp [PartComplete, GetAccessToken, HTTPPost, Unmarshal, h1, h2, h3, hc] at herr
          · simp [PartComplete, GetAccessToken, HTTPPost, Unmarshal, h1, h2, h3, hc]
        · simp [PartComplete, GetAccessToken, HTTPPost, Unmarshal, h1, h2, h3]
      · simp [PartComplete, GetAccessToken, HTTPPost, h1, h2]
    · simp [PartComplete, GetAccessToken, h1]
  · intro videoInfo herr
    rcases h1 : env.GetAccessToken openid w.state with ⟨⟨tok, _ | e⟩, s1⟩
    · rcases h2 : env.PostJSON (Sprintf videoCreateURL [.str tok, .str openid])
          (.createVideoReq videoInfo) s1 with ⟨⟨resp, _ | e⟩, s2⟩
      · rcases h3 : env.unmarshalCreateRes resp with ⟨res, _ | e⟩
        · by_cases hc : res.Data.ErrCode = 0
          · simp [Create, GetAccessToken, PostJSON, Unmarshal, h1, h2, h3, hc] at herr
          · simp [Create, GetAccessToken, PostJSON, Unmarshal, h1, h2, h3, hc]
        · simp [Create, GetAccessToken, PostJSON, Unmarshal, h1, h2, h3]
      · simp [Create, GetAccessToken, PostJSON, h1, h2]
    · simp [Create, GetAccessToken, h1]

/-- Concrete run for C10: Create against the provider answering errcode 4001001 returns an
error and the zero `CreateInfo`, whose `ErrCode` is 0 and `ErrMsg` empty although the
decoded envelope held 4001001 and "invalid param". -/
theorem error_returns_zero_result_witness :
    (Create invalidParamEnv "u1" none w0).1.2 ≠ none
    ∧ (Create invalidParamEnv "u1" none w0).1.1 = CreateInfo.zero
    ∧ (invalidParamEnv.unmarshalCreateRes invalidParamBody).1.Data.ErrCode = 4001001
    ∧ (Create invalidParamEnv "u1" none w0).1.1.ErrCode = 0
    ∧ (Create invalidParamEnv "u1" none w0).1.1.ErrMsg = "" :=
  have herr : (Create invalidParamEnv "u1" none w0).1.2 ≠ none := by
    intro h
    exact Option.noConfusion h
  ⟨herr, (error_returns_zero_result invalidParamEnv "u1" w0).2.2.2 none herr, rfl, rfl, rfl⟩

end Douyin
